import Mathlib

/-!
Shallow embedding of the webhook application in `app.py`: a Flask endpoint that
verifies a shared secret, asks an LLM to generate or modify a single-page web
application, publishes the result to GitHub (create or update), and notifies an
evaluation server with retries.  External services (the LLM API, the GitHub
API, the outbound HTTP POST) are modelled as oracles recorded in environment
structures; each embedded function returns its result together with a trace of
the observable side effects it performed.
-/

namespace LLMApp

/-- Outcome of a call to the GitHub API that can raise either a
`GithubException` (caught by the inner `try` in `deploy_to_github`) or some
other exception (propagating to the outer `try`). -/
inductive GhStep
  | ok
  | ghExc
  | otherExc
  deriving DecidableEq, Repr

/-- Outcome of the `requests.post` call in `enable_github_pages`: an HTTP
response with a status code, or a raised exception. -/
inductive PagesResult
  | status (code : Nat)
  | exc
  deriving DecidableEq, Repr

/-- The final JSON payload posted to the evaluation server
(`final_payload` in `handle_request`). -/
structure Payload where
  email : Option String
  task : Option String
  round : Int
  nonce : Option String
  repo_url : Option String
  commit_sha : Option String
  pages_url : Option String
  deriving DecidableEq, Repr

/-- Observable side effects of one request, in order of occurrence. -/
inductive Event
  | llmCall
  | repoDeleted (name : String)
  | sleep (seconds : Nat)
  | repoCreated (name : String)
  | fileCreated (path content : String)
  | fileFetched (path sha : String)
  | fileUpdated (path expectedSha content resultSha : String)
  | pagesRequest (repo : String)
  | notifyInvoked (url : String) (payload : Payload)
  | notifyPost (url : String) (payload : Payload)
  deriving DecidableEq, Repr

/-- Final observable outcome of the Flask handler: a normal HTTP response with
a status code (including the responses produced by `abort`), or an uncaught
exception escaping the handler. -/
inductive Outcome
  | crash
  | status (code : Nat)
  deriving DecidableEq, Repr

/-- Python truthiness of an optional string: `None` and `""` are falsy. -/
def truthy : Option String → Bool
  | none => false
  | some s => !(s == "")

/-- Character-level worker for Python `s.split(sep)` with a non-empty
separator: scan left to right, cutting at each non-overlapping occurrence.
`fuel` bounds the recursion by the length of the remaining text. -/
def splitChars (pat : List Char) : Nat → List Char → List (List Char)
  | 0, s => [s]
  | _, [] => [[]]
  | fuel + 1, c :: rest =>
    if pat.isPrefixOf (c :: rest) then
      [] :: splitChars pat fuel ((c :: rest).drop pat.length)
    else
      match splitChars pat fuel rest with
      | [] => [[c]]
      | h :: t => (c :: h) :: t

/-- Python `s.split(sep)` for a non-empty separator. -/
def pySplit (s pat : String) : List String :=
  (splitChars pat.data (s.data.length + 1) s.data).map String.mk

/-- Join a list of strings with a separator (Python `sep.join(parts)`). -/
def joinWith (sep : String) : List String → String
  | [] => ""
  | [x] => x
  | x :: y :: xs => x ++ sep ++ joinWith sep (y :: xs)

/-- Python `s.replace(pat, rep)` for a non-empty pattern: replace every
non-overlapping occurrence, scanning left to right. -/
def replaceAll (s pat rep : String) : String :=
  joinWith rep (pySplit s pat)

/-- Python `s.strip()`: remove whitespace from both ends. -/
def pyStrip (s : String) : String :=
  String.mk (((s.data.dropWhile Char.isWhitespace).reverse.dropWhile
    Char.isWhitespace).reverse)

/-- Post-processing of the create-mode LLM answer:
`response.text.strip().replace("```html", "").replace("```", "")`. -/
def stripHtmlFences (s : String) : String :=
  replaceAll (replaceAll (pyStrip s) "```html" "") "```" ""

/-- Post-processing of the README half of the modify-mode answer:
`.strip().replace("```markdown", "").replace("```", "")`. -/
def stripMdFences (s : String) : String :=
  replaceAll (replaceAll (pyStrip s) "```markdown" "") "```" ""

/-!  ## Generation client (round 1): `generate_code_with_llm`  -/

/-- One line of the attachments listing.  `att["name"]` and `att["url"]` are
plain subscripts evaluated before the `try` block: a missing key raises an
uncaught `KeyError`, modelled as `Except.error`. -/
def attachmentLine (att : List (String × String)) : Except Unit String :=
  match att.lookup "name" with
  | none => .error ()
  | some nm =>
    match att.lookup "url" with
    | none => .error ()
    | some u => .ok ("- Name: " ++ nm ++ ", URL: " ++ u)

/-- The `attachments_string` value: the default text for an empty (falsy) list,
otherwise the joined per-attachment lines. -/
def attachmentsString (atts : List (List (String × String))) :
    Except Unit String :=
  match atts with
  | [] => .ok "No attachments provided."
  | _ => do
    let lines ← atts.mapM attachmentLine
    .ok (joinWith "\n" lines)

/-- Embedding of `generate_code_with_llm(brief, attachments, checks)`.  The LLM call itself
is an oracle `llm` (`.error` = the API call raised, caught by the `try` and
converted to `None`).  A `KeyError` while building the attachment listing
happens before the `try` and escapes as `.error ()` in the first component;
`Event.llmCall` is recorded exactly when the API call is issued. -/
def generate_code_with_llm (llm : Except Unit String) (brief : String)
    (attachments : List (List (String × String))) (checks : List String) :
    Except Unit (Option String) × List Event :=
  match attachmentsString attachments with
  | .error _ => (.error (), [])
  | .ok _ =>
    match llm with
    | .error _ => (.ok none, [.llmCall])
    | .ok text => (.ok (some (stripHtmlFences text)), [.llmCall])

/-!  ## Pages enabling and round-1 deployment  -/

/-- Environment for `deploy_to_github`: the oracle outcomes of each GitHub
API call it makes, in program order. -/
structure DeployEnv where
  getUserExc : Bool
  userLogin : String
  userName : Option String
  getRepoOutcome : GhStep
  deleteOutcome : GhStep
  createRepoExc : Bool
  createIndexExc : Bool
  createReadmeExc : Bool
  createLicenseExc : Bool
  pagesOutcome : PagesResult
  getBranchExc : Bool
  branchSha : String
  repoHtmlUrl : String

/-- Resolution `user.name if user.name else user.login` (Python truthiness). -/
def resolvedUserName (e : DeployEnv) : String :=
  match e.userName with
  | some s => if s == "" then e.userLogin else s
  | none => e.userLogin

/-- The README text composed in `deploy_to_github`. -/
def readmeText (repo_name brief : String) : String :=
  "# " ++ repo_name ++
    "\n\n## Summary\nThis web application was auto-generated by an LLM based on the following brief:\n> "
    ++ brief ++ "\n\n## License\nThis project is licensed under the MIT License."

/-- The abbreviated MIT license text composed in `deploy_to_github`. -/
def licenseText (user_name : String) : String :=
  "MIT License\n\nCopyright (c) 2025 " ++ user_name ++ "\n\n..."

/-- Embedding of `enable_github_pages(repo_name, owner)`: issues one POST; success is
exactly status 201; every exception is caught, so this function never raises
to its caller. -/
def enable_github_pages (res : PagesResult) (repo_name : String) :
    Bool × List Event :=
  match res with
  | .status code => (code == 201, [.pagesRequest repo_name])
  | .exc => (false, [.pagesRequest repo_name])

/-- The inner `try ... except GithubException: pass` block of
`deploy_to_github`: look up an existing repository and delete it.  A
`GithubException` from either the lookup or the delete is swallowed; any
other exception propagates to the outer handler (`Except.error`). -/
def cleanSlate (e : DeployEnv) (repo_name : String) :
    Except Unit (List Event) :=
  match e.getRepoOutcome with
  | .ghExc => .ok []
  | .otherExc => .error ()
  | .ok =>
    match e.deleteOutcome with
    | .ghExc => .ok []
    | .otherExc => .error ()
    | .ok => .ok [.repoDeleted repo_name, .sleep 2]

/-- Embedding of `deploy_to_github(repo_name, html_content, brief)`: delete any existing
repository, create a fresh one, commit `index.html`, `README.md`, `LICENSE`,
call `enable_github_pages` (its Boolean result is discarded), and read back
the branch head.  The outer `try` converts any escaping exception into the
failure triple `(None, None, None)`. -/
def deploy_to_github (e : DeployEnv) (repo_name html_content brief : String) :
    (Option String × Option String × Option String) × List Event :=
  if e.getUserExc then ((none, none, none), []) else
  match cleanSlate e repo_name with
  | .error _ => ((none, none, none), [])
  | .ok ev0 =>
    if e.createRepoExc then ((none, none, none), ev0) else
    let ev1 := ev0 ++ [.repoCreated repo_name]
    if e.createIndexExc then ((none, none, none), ev1) else
    let ev2 := ev1 ++ [.fileCreated "index.html" html_content]
    if e.createReadmeExc then ((none, none, none), ev2) else
    let ev3 := ev2 ++ [.fileCreated "README.md" (pyStrip (readmeText repo_name brief))]
    if e.createLicenseExc then ((none, none, none), ev3) else
    let ev4 := ev3 ++ [.fileCreated "LICENSE" (pyStrip (licenseText (resolvedUserName e)))]
    let ev5 := ev4 ++ (enable_github_pages e.pagesOutcome repo_name).2
    if e.getBranchExc then ((none, none, none), ev5) else
    ((some e.repoHtmlUrl,
      some ("https://" ++ e.userLogin ++ ".github.io/" ++ repo_name ++ "/"),
      some e.branchSha), ev5)

/-!  ## Modify-mode generation and round-≥2 update  -/

/-- Embedding of `modify_code_with_llm(brief, checks, old_html, old_readme)`: the prompt is
built from pure string formatting (cannot raise), the API call is issued, and
the answer is split on the literal `<<FILE_SEPARATOR>>`; only a split into
exactly two parts succeeds (emptiness of the parts is not checked).  Both an
API exception and a bad split yield `(None, None)`. -/
def modify_code_with_llm (llm : Except Unit String) (brief : String)
    (checks : List String) (old_html old_readme : String) :
    Option (String × String) × List Event :=
  match llm with
  | .error _ => (none, [.llmCall])
  | .ok text =>
    match pySplit text "<<FILE_SEPARATOR>>" with
    | [p0, p1] => (some (stripHtmlFences p0, stripMdFences p1), [.llmCall])
    | _ => (none, [.llmCall])

/-- Environment for `update_github_repo`: oracle outcomes of its GitHub API
calls, the fetched file contents and content hashes, the fresh README hash
observed by the second fetch, and the commit sha reported by the README
update response. -/
structure UpdateEnv where
  getUserExc : Bool
  userLogin : String
  getRepoExc : Bool
  repoHtmlUrl : String
  getIndexExc : Bool
  indexContent : String
  indexSha : String
  getReadmeExc : Bool
  readmeContent : String
  readmeSha : String
  llm : Except Unit String
  updateIndexExc : Bool
  updateIndexResultSha : String
  getReadme2Exc : Bool
  readmeSha2 : String
  updateReadmeExc : Bool
  newCommitSha : String

/-- Embedding of `update_github_repo(repo_name, brief, checks)`: fetch both files with
their hashes, run modify-mode generation, commit `index.html` against the
previously fetched hash, sleep, re-fetch the README hash, commit `README.md`
against the fresh hash, and return the commit sha extracted from the README
update response.  The outer `try` converts any escaping exception (including
the explicit `raise` on a failed generation) into `(None, None, None)`. -/
def update_github_repo (e : UpdateEnv) (repo_name brief : String)
    (checks : List String) :
    (Option String × Option String × Option String) × List Event :=
  if e.getUserExc then ((none, none, none), []) else
  if e.getRepoExc then ((none, none, none), []) else
  if e.getIndexExc then ((none, none, none), []) else
  let ev0 : List Event := [.fileFetched "index.html" e.indexSha]
  if e.getReadmeExc then ((none, none, none), ev0) else
  let ev1 := ev0 ++ [.fileFetched "README.md" e.readmeSha]
  let gen := modify_code_with_llm e.llm brief checks e.indexContent e.readmeContent
  let ev2 := ev1 ++ gen.2
  match gen.1 with
  | none => ((none, none, none), ev2)
  | some (new_html, new_readme) =>
    if e.updateIndexExc then ((none, none, none), ev2) else
    let ev3 := ev2 ++
      [.fileUpdated "index.html" e.indexSha new_html e.updateIndexResultSha, .sleep 2]
    if e.getReadme2Exc then ((none, none, none), ev3) else
    let ev4 := ev3 ++ [.fileFetched "README.md" e.readmeSha2]
    if e.updateReadmeExc then ((none, none, none), ev4) else
    let ev5 := ev4 ++ [.fileUpdated "README.md" e.readmeSha2 new_readme e.newCommitSha]
    ((some e.repoHtmlUrl,
      some ("https://" ++ e.userLogin ++ ".github.io/" ++ repo_name ++ "/"),
      some e.newCommitSha), ev5)

/-!  ## Notifier: `notify_evaluation_server`  -/

/-- Whether one attempt's outcome is the success the loop tests for:
a response (no exception) with status exactly 200. -/
def statusOk : Except Unit Nat → Bool
  | .ok code => code == 200
  | .error _ => false

/-- The `for i in range(retries)` loop of `notify_evaluation_server`:
`fuel` attempts remain, `i` is the index of the next attempt, `delay` is the
current sleep length.  Every attempt (response or exception) records a
`notifyPost`; a non-success is followed by `time.sleep(delay)` and
`delay *= 2` — also after the final attempt, as in the source. -/
def notifyLoop (outcomes : Nat → Except Unit Nat) (url : String) (p : Payload) :
    Nat → Nat → Nat → Bool × List Event
  | 0, _, _ => (false, [])
  | fuel + 1, i, delay =>
    if statusOk (outcomes i) then
      (true, [.notifyPost url p])
    else
      let rest := notifyLoop outcomes url p fuel (i + 1) (delay * 2)
      (rest.1, .notifyPost url p :: .sleep delay :: rest.2)

/-- Embedding of `notify_evaluation_server(url, payload)`: up to 5 POST attempts with
doubling delays starting at 1.  `notifyInvoked` records the single entry into
the notifier. -/
def notify_evaluation_server (outcomes : Nat → Except Unit Nat)
    (url : String) (p : Payload) : Bool × List Event :=
  let r := notifyLoop outcomes url p 5 0 1
  (r.1, .notifyInvoked url p :: r.2)

/-!  ## Request handlers  -/

/-- The parsed JSON body of an inbound request; absent fields are `none`. -/
structure RequestData where
  secret : Option String
  brief : Option String
  attachments : List (List (String × String))
  checks : List String
  task : Option String
  round : Option Int
  email : Option String
  nonce : Option String
  evaluation_url : Option String

/-- All oracle outcomes one request can consume. -/
structure Env where
  deploy : DeployEnv
  update : UpdateEnv
  llmCreate : Except Unit String
  notifyOutcomes : Nat → Except Unit Nat

/-- Embedding of `handle_round_1(data)`: validate `brief`/`task` (Python truthiness),
generate, reject a falsy generation result with 500, deploy, reject a falsy
`repo_url` with 500.  An uncaught `KeyError` from the prompt builder escapes
as `.crash`. -/
def handle_round_1 (de : DeployEnv) (llm : Except Unit String)
    (data : RequestData) :
    Except Outcome (Option String × Option String × Option String) × List Event :=
  if !(truthy data.brief && truthy data.task) then (.error (.status 400), []) else
  let gen := generate_code_with_llm llm (data.brief.getD "") data.attachments data.checks
  match gen.1 with
  | .error _ => (.error .crash, gen.2)
  | .ok none => (.error (.status 500), gen.2)
  | .ok (some html) =>
    if html == "" then (.error (.status 500), gen.2) else
    let dep := deploy_to_github de (data.task.getD "") html (data.brief.getD "")
    let evs := gen.2 ++ dep.2
    match dep.1 with
    | (some repo_url, pages_url, commit_sha) =>
      if repo_url == "" then (.error (.status 500), evs)
      else (.ok (some repo_url, pages_url, commit_sha), evs)
    | (none, _, _) => (.error (.status 500), evs)

/-- Embedding of `handle_round_2(data)`: validate `brief`/`task`, update the repository,
reject a falsy `repo_url` with 500. -/
def handle_round_2 (ue : UpdateEnv) (data : RequestData) :
    Except Outcome (Option String × Option String × Option String) × List Event :=
  if !(truthy data.brief && truthy data.task) then (.error (.status 400), []) else
  let upd := update_github_repo ue (data.task.getD "") (data.brief.getD "") data.checks
  match upd.1 with
  | (some repo_url, pages_url, commit_sha) =>
    if repo_url == "" then (.error (.status 500), upd.2)
    else (.ok (some repo_url, pages_url, commit_sha), upd.2)
  | (none, _, _) => (.error (.status 500), upd.2)

/-- Embedding of `handle_request()`: 400 on a missing JSON body; 403 when the configured
secret is falsy or differs from the supplied one; dispatch on
`data.get("round", 1) > 1`; 400 when `evaluation_url` is falsy, checked only
after the selected branch has completed; otherwise notify once and answer
200 regardless of the notifier's Boolean result. -/
def handle_request (env : Env) (mySecret : Option String)
    (reqData : Option RequestData) : Outcome × List Event :=
  match reqData with
  | none => (.status 400, [])
  | some data =>
    if !(truthy mySecret) || data.secret != mySecret then (.status 403, [])
    else
      let round_num : Int := data.round.getD 1
      let branch :=
        if round_num > 1 then handle_round_2 env.update data
        else handle_round_1 env.deploy env.llmCreate data
      match branch with
      | (.error o, evs) => (o, evs)
      | (.ok (repo_url, pages_url, commit_sha), evs) =>
        if !(truthy data.evaluation_url) then (.status 400, evs)
        else
          let payload : Payload :=
            ⟨data.email, data.task, round_num, data.nonce,
              repo_url, commit_sha, pages_url⟩
          let ntf := notify_evaluation_server env.notifyOutcomes
            (data.evaluation_url.getD "") payload
          (.status 200, evs ++ ntf.2)

/-!  ## Trace observations  -/

/-- Whether an event is a notifier invocation. -/
def isInvoked : Event → Bool
  | .notifyInvoked _ _ => true
  | _ => false

/-- Whether an event is a notification POST attempt. -/
def isPost : Event → Bool
  | .notifyPost _ _ => true
  | _ => false

/-- Whether an event is a file-update commit. -/
def isUpdated : Event → Bool
  | .fileUpdated _ _ _ _ => true
  | _ => false

/-- Number of notifier invocations recorded in a trace. -/
def countInvoked (t : List Event) : Nat := t.countP isInvoked

/-- Number of notification POST attempts recorded in a trace. -/
def countPosts (t : List Event) : Nat := t.countP isPost

/-- Number of file-update commits recorded in a trace. -/
def countUpdates (t : List Event) : Nat := t.countP isUpdated

/-- The sleep durations recorded in a trace, in order. -/
def sleeps (t : List Event) : List Nat :=
  t.filterMap (fun e => match e with | .sleep n => some n | _ => none)

/-!  ## Derived notions used by the statements  -/

/-- The trace produced by `k` consecutive failed notification attempts
starting with the given delay: each attempt is followed by its sleep, the
delay doubling each time. -/
def failRun (url : String) (p : Payload) : Nat → Nat → List Event
  | _, 0 => []
  | delay, k + 1 => .notifyPost url p :: .sleep delay :: failRun url p (delay * 2) k

/-- List of `k` exponentially doubling delays starting at `delay`. -/
def doublingFrom (delay : Nat) : Nat → List Nat
  | 0 => []
  | k + 1 => delay :: doublingFrom (delay * 2) k

/-- Deployment oracle outcomes under which the Python `deploy_to_github`
raises out of its body into the outer `except`: an exception while resolving
the user, a non-`GithubException` during the lookup or the delete, or any
exception during repository creation, one of the three file commits, or the
branch read-back.  (A `GithubException` during lookup or delete is swallowed
by the inner handler, and `enable_github_pages` never raises outward.) -/
@[reducible]
def deployAborts (e : DeployEnv) : Prop :=
  e.getUserExc = true ∨ e.getRepoOutcome = GhStep.otherExc ∨
  (e.getRepoOutcome = GhStep.ok ∧ e.deleteOutcome = GhStep.otherExc) ∨
  e.createRepoExc = true ∨ e.createIndexExc = true ∨ e.createReadmeExc = true ∨
  e.createLicenseExc = true ∨ e.getBranchExc = true

/-- A deployment oracle in which every GitHub call succeeds, no repository
with the target name pre-exists, and the repository URL is non-empty; the
pages-enable outcome is left unconstrained. -/
@[reducible]
def DeployOk (e : DeployEnv) : Prop :=
  e.getUserExc = false ∧ e.getRepoOutcome = GhStep.ghExc ∧
  e.createRepoExc = false ∧ e.createIndexExc = false ∧
  e.createReadmeExc = false ∧ e.createLicenseExc = false ∧
  e.getBranchExc = false ∧ e.repoHtmlUrl ≠ ""

/-- An update oracle in which no GitHub call raises. -/
@[reducible]
def UpdateOk (e : UpdateEnv) : Prop :=
  e.getUserExc = false ∧ e.getRepoExc = false ∧ e.getIndexExc = false ∧
  e.getReadmeExc = false ∧ e.updateIndexExc = false ∧ e.getReadme2Exc = false ∧
  e.updateReadmeExc = false

/-!  ## Sample oracles and requests for concrete instances  -/

/-- A fully successful deployment oracle. -/
def okDeploy : DeployEnv :=
  { getUserExc := false, userLogin := "octo", userName := some "Octo Cat",
    getRepoOutcome := .ghExc, deleteOutcome := .ok,
    createRepoExc := false, createIndexExc := false, createReadmeExc := false,
    createLicenseExc := false, pagesOutcome := .status 201, getBranchExc := false,
    branchSha := "sha1", repoHtmlUrl := "https://github.com/octo/todo-demo" }

/-- A fully successful update oracle whose LLM answer splits into two parts. -/
def okUpdate : UpdateEnv :=
  { getUserExc := false, userLogin := "octo", getRepoExc := false,
    repoHtmlUrl := "https://github.com/octo/todo-demo",
    getIndexExc := false, indexContent := "<html>old</html>", indexSha := "shaA",
    getReadmeExc := false, readmeContent := "# old", readmeSha := "shaB",
    llm := .ok "<html>new</html><<FILE_SEPARATOR>># new", updateIndexExc := false,
    updateIndexResultSha := "shaI",
    getReadme2Exc := false, readmeSha2 := "shaB2", updateReadmeExc := false,
    newCommitSha := "shaC" }

/-- A well-formed round-1 request. -/
def dataOk : RequestData :=
  { secret := some "s1", brief := some "a todo app", attachments := [],
    checks := [], task := some "todo-demo", round := some 1,
    email := some "a@b.c", nonce := some "n1",
    evaluation_url := some "https://eval.example/cb" }

/-- Request `dataOk` without an evaluation_url. -/
def dataNoEval : RequestData := { dataOk with evaluation_url := none }

/-- Request `dataOk` without a brief. -/
def dataNoBrief : RequestData := { dataOk with brief := none }

/-- An attachment entry that has a `url` key but no `name` key. -/
def attMissingName : List (String × String) := [("url", "http://example.com/a.png")]

/-- Request `dataOk` carrying the malformed attachment entry. -/
def dataMissingKey : RequestData := { dataOk with attachments := [attMissingName] }

/-- A fully successful environment for a request. -/
def envOk : Env :=
  { deploy := okDeploy, update := okUpdate,
    llmCreate := .ok "<html>ok</html>", notifyOutcomes := fun _ => .ok 200 }

/-- Environment `envOk` whose repository creation call raises. -/
def envFailCreate : Env :=
  { envOk with deploy := { okDeploy with createRepoExc := true } }

/-- Environment `envOk` with a different (failing) update oracle. -/
def envAltUpdate : Env := { envOk with update := { okUpdate with getRepoExc := true } }

/-- Oracle `okDeploy` whose pages-enable POST is answered with 404. -/
def pagesFailDeploy : DeployEnv := { okDeploy with pagesOutcome := .status 404 }

/-- Oracle `okDeploy` whose `index.html` commit raises. -/
def abortDeploy : DeployEnv := { okDeploy with createIndexExc := true }

/-- Oracle `okUpdate` whose LLM answer splits into two parts, the second empty. -/
def emptyPartUpdate : UpdateEnv :=
  { okUpdate with llm := .ok "<html>new</html><<FILE_SEPARATOR>>" }

/-- Oracle `okUpdate` whose LLM answer contains no separator at all. -/
def noSepUpdate : UpdateEnv := { okUpdate with llm := .ok "just one file" }

/-- The success triple produced by `okDeploy` on the `todo-demo` request. -/
def tripOk : Option String × Option String × Option String :=
  (some "https://github.com/octo/todo-demo",
   some "https://octo.github.io/todo-demo/", some "sha1")

/-- The round-1 trace produced by `envOk` on `dataOk`. -/
def evsOkR1 : List Event :=
  [.llmCall, .repoCreated "todo-demo",
   .fileCreated "index.html" "<html>ok</html>",
   .fileCreated "README.md" (pyStrip (readmeText "todo-demo" "a todo app")),
   .fileCreated "LICENSE" (pyStrip (licenseText "Octo Cat")),
   .pagesRequest "todo-demo"]

/-- Notification outcomes that succeed on the third attempt. -/
def outcomesThird : Nat → Except Unit Nat :=
  fun i => if i = 2 then .ok 200 else .ok 503

/-- A sample payload. -/
def payloadW : Payload :=
  ⟨some "e@x.y", some "todo-demo", 1, some "n1", none, none, none⟩

/-!  ## Helper lemmas  -/

theorem countInvoked_append (s t : List Event) :
    countInvoked (s ++ t) = countInvoked s + countInvoked t :=
  List.countP_append _ _ _

theorem countInvoked_eq_zero {t : List Event}
    (h : ∀ a ∈ t, isInvoked a = false) : countInvoked t = 0 := by
  simp only [countInvoked, List.countP_eq_zero]
  intro a ha
  simp [h a ha]

theorem modify_trace (llm : Except Unit String) (b : String) (cs : List String)
    (oh orr : String) : (modify_code_with_llm llm b cs oh orr).2 = [.llmCall] := by
  rcases llm with e | t
  · rfl
  · simp only [modify_code_with_llm]
    rcases pySplit t "<<FILE_SEPARATOR>>" with _ | ⟨p0, _ | ⟨p1, _ | ⟨p2, rest⟩⟩⟩ <;> rfl

theorem gen_trace (llm : Except Unit String) (b : String)
    (atts : List (List (String × String))) (cs : List String) :
    (generate_code_with_llm llm b atts cs).2 = [] ∨
    (generate_code_with_llm llm b atts cs).2 = [.llmCall] := by
  simp only [generate_code_with_llm]
  rcases attachmentsString atts with e | s
  · exact Or.inl rfl
  · rcases llm with e | t <;> exact Or.inr rfl

theorem gen_no_invoke (llm : Except Unit String) (b : String)
    (atts : List (List (String × String))) (cs : List String) :
    ∀ a ∈ (generate_code_with_llm llm b atts cs).2, isInvoked a = false := by
  rcases gen_trace llm b atts cs with h | h <;> rw [h] <;> simp [isInvoked]

theorem pages_no_invoke (r : PagesResult) (n : String) :
    ∀ a ∈ (enable_github_pages r n).2, isInvoked a = false := by
  cases r <;> simp [enable_github_pages, isInvoked]

theorem cleanSlate_no_invoke (e : DeployEnv) (n : String) (ev : List Event)
    (h : cleanSlate e n = .ok ev) : ∀ a ∈ ev, isInvoked a = false := by
  revert h
  simp only [cleanSlate]
  rcases e.getRepoOutcome <;> rcases e.deleteOutcome <;> intro h <;>
    (try simp only [Except.ok.injEq, reduceCtorEq] at h) <;>
    (try subst h) <;> simp [isInvoked]

theorem no_invoke_append {s t : List Event}
    (hs : ∀ a ∈ s, isInvoked a = false) (ht : ∀ a ∈ t, isInvoked a = false) :
    ∀ a ∈ s ++ t, isInvoked a = false := by
  intro a ha
  rcases List.mem_append.mp ha with h | h
  · exact hs a h
  · exact ht a h

theorem deploy_no_invoke (e : DeployEnv) (n h b : String) :
    ∀ a ∈ (deploy_to_github e n h b).2, isInvoked a = false := by
  simp only [deploy_to_github]
  split
  · simp
  split
  · simp
  rename_i ev0 hev0
  have h0 := cleanSlate_no_invoke e n ev0 hev0
  have hpg := pages_no_invoke e.pagesOutcome n
  repeat' split
  all_goals
    repeat'
      first
        | exact h0
        | exact hpg
        | apply no_invoke_append
        | simp [isInvoked]

theorem countInvoked_deploy (e : DeployEnv) (n h b : String) :
    countInvoked (deploy_to_github e n h b).2 = 0 :=
  countInvoked_eq_zero (deploy_no_invoke e n h b)

theorem update_no_invoke (e : UpdateEnv) (n b : String) (cs : List String) :
    ∀ a ∈ (update_github_repo e n b cs).2, isInvoked a = false := by
  simp only [update_github_repo]
  have hm : ∀ a ∈ (modify_code_with_llm e.llm b cs e.indexContent e.readmeContent).2,
      isInvoked a = false := by
    rw [modify_trace]; simp [isInvoked]
  repeat' split
  all_goals
    repeat'
      first
        | exact hm
        | apply no_invoke_append
        | simp [isInvoked]

theorem countInvoked_update (e : UpdateEnv) (n b : String) (cs : List String) :
    countInvoked (update_github_repo e n b cs).2 = 0 :=
  countInvoked_eq_zero (update_no_invoke e n b cs)

theorem round1_no_invoke (de : DeployEnv) (llm : Except Unit String)
    (data : RequestData) :
    ∀ a ∈ (handle_round_1 de llm data).2, isInvoked a = false := by
  simp only [handle_round_1]
  have hg := gen_no_invoke llm (data.brief.getD "") data.attachments data.checks
  have hd := deploy_no_invoke de (data.task.getD "")
  repeat' split
  all_goals
    repeat'
      first
        | exact hg
        | exact hd _ _
        | apply no_invoke_append
        | simp [isInvoked]

theorem countInvoked_round1 (de : DeployEnv) (llm : Except Unit String)
    (data : RequestData) : countInvoked (handle_round_1 de llm data).2 = 0 :=
  countInvoked_eq_zero (round1_no_invoke de llm data)

theorem round2_no_invoke (ue : UpdateEnv) (data : RequestData) :
    ∀ a ∈ (handle_round_2 ue data).2, isInvoked a = false := by
  simp only [handle_round_2]
  have hu := update_no_invoke ue (data.task.getD "") (data.brief.getD "") data.checks
  repeat' split
  all_goals first
    | exact hu
    | simp [isInvoked]

theorem countInvoked_round2 (ue : UpdateEnv) (data : RequestData) :
    countInvoked (handle_round_2 ue data).2 = 0 :=
  countInvoked_eq_zero (round2_no_invoke ue data)

theorem notifyLoop_no_invoke (outcomes : Nat → Except Unit Nat) (url : String)
    (p : Payload) : ∀ fuel i delay,
    ∀ a ∈ (notifyLoop outcomes url p fuel i delay).2, isInvoked a = false := by
  intro fuel
  induction fuel with
  | zero => intro i delay a ha; simp [notifyLoop] at ha
  | succ fuel ih =>
    intro i delay a ha
    by_cases h : statusOk (outcomes i) = true
    · simp only [notifyLoop, h, if_true] at ha
      simp only [List.mem_cons, List.not_mem_nil, or_false] at ha
      subst ha; rfl
    · have hf : statusOk (outcomes i) = false := by simpa using h
      simp only [notifyLoop, hf, Bool.false_eq_true, if_false] at ha
      simp only [List.mem_cons] at ha
      rcases ha with rfl | rfl | ha
      · rfl
      · rfl
      · exact ih (i + 1) (delay * 2) a ha

theorem countInvoked_notify (outcomes : Nat → Except Unit Nat) (url : String)
    (p : Payload) : countInvoked (notify_evaluation_server outcomes url p).2 = 1 := by
  have hrec : countInvoked (notifyLoop outcomes url p 5 0 1).2 = 0 :=
    countInvoked_eq_zero (notifyLoop_no_invoke outcomes url p 5 0 1)
  simp only [notify_evaluation_server, countInvoked, List.countP_cons] at hrec ⊢
  simp [hrec, isInvoked]

theorem notifyLoop_succ_at (outcomes : Nat → Except Unit Nat) (url : String)
    (p : Payload) : ∀ (k fuel i delay : Nat), k < fuel →
    (∀ j, j < k → statusOk (outcomes (i + j)) = false) →
    statusOk (outcomes (i + k)) = true →
    notifyLoop outcomes url p fuel i delay =
      (true, failRun url p delay k ++ [.notifyPost url p]) := by
  intro k
  induction k with
  | zero =>
    intro fuel i delay hk _ hsucc
    match fuel, hk with
    | fuel + 1, _ =>
      have hs : statusOk (outcomes i) = true := by simpa using hsucc
      simp [notifyLoop, hs, failRun]
  | succ k ih =>
    intro fuel i delay hk hfail hsucc
    match fuel, hk with
    | fuel + 1, hk =>
      have h0 : statusOk (outcomes i) = false := by
        simpa using hfail 0 (Nat.succ_pos k)
      have hrec := ih fuel (i + 1) (delay * 2) (Nat.lt_of_succ_lt_succ hk)
        (fun j hj => by
          have h2 := hfail (j + 1) (Nat.succ_lt_succ hj)
          have h3 : i + 1 + j = i + (j + 1) := by omega
          rw [h3]; exact h2)
        (by
          have h4 : i + 1 + k = i + (k + 1) := by omega
          rw [h4]; exact hsucc)
      simp [notifyLoop, h0, hrec, failRun]

theorem notifyLoop_all_fail (outcomes : Nat → Except Unit Nat) (url : String)
    (p : Payload) : ∀ (fuel i delay : Nat),
    (∀ j, j < fuel → statusOk (outcomes (i + j)) = false) →
    notifyLoop outcomes url p fuel i delay = (false, failRun url p delay fuel) := by
  intro fuel
  induction fuel with
  | zero => intro i delay _; simp [notifyLoop, failRun]
  | succ fuel ih =>
    intro i delay hfail
    have h0 : statusOk (outcomes i) = false := by
      simpa using hfail 0 (Nat.succ_pos fuel)
    have hrec := ih (i + 1) (delay * 2) (fun j hj => by
      have h2 := hfail (j + 1) (Nat.succ_lt_succ hj)
      have h3 : i + 1 + j = i + (j + 1) := by omega
      rw [h3]; exact h2)
    simp [notifyLoop, h0, hrec, failRun]

theorem countPosts_failRun (url : String) (p : Payload) :
    ∀ (k delay : Nat), countPosts (failRun url p delay k) = k := by
  intro k
  induction k with
  | zero => intro delay; rfl
  | succ k ih =>
    intro delay
    have := ih (delay * 2)
    simp only [failRun, countPosts, List.countP_cons] at this ⊢
    simp [this, isPost]

theorem sleeps_failRun (url : String) (p : Payload) :
    ∀ (k delay : Nat), sleeps (failRun url p delay k) = doublingFrom delay k := by
  intro k
  induction k with
  | zero => intro delay; rfl
  | succ k ih =>
    intro delay
    simp only [failRun, doublingFrom, sleeps, List.filterMap_cons]
    have := ih (delay * 2)
    simp only [sleeps] at this
    simp [this]

theorem countPosts_notifyLoop_le (outcomes : Nat → Except Unit Nat) (url : String)
    (p : Payload) : ∀ (fuel i delay : Nat),
    countPosts (notifyLoop outcomes url p fuel i delay).2 ≤ fuel := by
  intro fuel
  induction fuel with
  | zero => intro i delay; simp [notifyLoop, countPosts]
  | succ fuel ih =>
    intro i delay
    by_cases h : statusOk (outcomes i) = true
    · simp [notifyLoop, h, countPosts, isPost, List.countP_cons]
    · have hf : statusOk (outcomes i) = false := by simpa using h
      have hrec := ih (i + 1) (delay * 2)
      simp only [notifyLoop, hf, Bool.false_eq_true, if_false]
      simp only [countPosts, List.countP_cons] at hrec ⊢
      simp [isPost]
      omega

/-!  ## Claim theorems  -/

/-- Claim C4: for every target URL and payload, the notifier performs at most
5 POST attempts; a response with status exactly 200 on attempt `k` stops
further attempts, returns true, and has waited the doubling delays
1, 2, ..., 2^(k-1) between the attempts so far; network exceptions are
treated as failed attempts rather than crashing (the failure hypotheses admit
exception outcomes); after 5 non-successes it returns false having slept
1, 2, 4, 8, 16. -/
theorem notifier_retry_behavior (outcomes : Nat → Except Unit Nat)
    (url : String) (p : Payload) :
    countPosts (notify_evaluation_server outcomes url p).2 ≤ 5 ∧
    (∀ k, k < 5 → (∀ j, j < k → statusOk (outcomes j) = false) →
      statusOk (outcomes k) = true →
      notify_evaluation_server outcomes url p =
        (true, .notifyInvoked url p :: (failRun url p 1 k ++ [.notifyPost url p])) ∧
      countPosts (notify_evaluation_server outcomes url p).2 = k + 1 ∧
      sleeps (notify_evaluation_server outcomes url p).2 = doublingFrom 1 k) ∧
    ((∀ j, j < 5 → statusOk (outcomes j) = false) →
      notify_evaluation_server outcomes url p =
        (false, .notifyInvoked url p :: failRun url p 1 5) ∧
      sleeps (notify_evaluation_server outcomes url p).2 = [1, 2, 4, 8, 16]) := by
  refine ⟨?_, ?_, ?_⟩
  · have hle := countPosts_notifyLoop_le outcomes url p 5 0 1
    simp only [notify_evaluation_server, countPosts, List.countP_cons] at hle ⊢
    simp [isPost]
    omega
  · intro k hk hfail hsucc
    have hloop := notifyLoop_succ_at outcomes url p k 5 0 1 hk
      (fun j hj => by simpa using hfail j hj)
      (by simpa using hsucc)
    refine ⟨?_, ?_, ?_⟩
    · simp [notify_evaluation_server, hloop]
    · have hcp := countPosts_failRun url p k 1
      simp only [countPosts] at hcp
      simp only [notify_evaluation_server, hloop, countPosts, List.countP_cons,
        List.countP_append]
      simp [isPost, hcp]
    · have hsl := sleeps_failRun url p k 1
      simp only [sleeps] at hsl
      simp only [notify_evaluation_server, hloop, sleeps, List.filterMap_cons,
        List.filterMap_append]
      simp [hsl]
  · intro hfail
    have hloop := notifyLoop_all_fail outcomes url p 5 0 1
      (fun j hj => by simpa using hfail j hj)
    refine ⟨?_, ?_⟩
    · simp [notify_evaluation_server, hloop]
    · have hsl := sleeps_failRun url p 5 1
      simp only [sleeps] at hsl
      simp only [notify_evaluation_server, hloop, sleeps, List.filterMap_cons]
      rw [hsl]
      rfl

theorem notifier_retry_behavior_witness :
    ((∀ j, j < 2 → statusOk (outcomesThird j) = false) ∧
      statusOk (outcomesThird 2) = true) ∧
    notify_evaluation_server outcomesThird "u" payloadW =
      (true, .notifyInvoked "u" payloadW ::
        (failRun "u" payloadW 1 2 ++ [.notifyPost "u" payloadW])) :=
  ⟨⟨by decide, by decide⟩,
    ((notifier_retry_behavior outcomesThird "u" payloadW).2.1 2 (by decide)
      (by decide) (by decide)).1⟩

/-- Claim C5: for every request whose supplied secret differs from the
configured one, and for every request when the configured secret is empty or
unset, the response is 403 and no generation, publish, update, or notify
operation happens (the trace is empty). -/
theorem secret_gate (env : Env) (mySecret : Option String) (data : RequestData)
    (h : truthy mySecret = false ∨ data.secret ≠ mySecret) :
    handle_request env mySecret (some data) = (.status 403, []) := by
  simp only [handle_request]
  rcases h with h | h
  · simp [h]
  · simp [bne_iff_ne, h]

theorem secret_gate_witness :
    (truthy (some "") = false ∨ dataOk.secret ≠ some "") ∧
    handle_request envOk (some "") (some dataOk) = (.status 403, []) :=
  ⟨Or.inl rfl, secret_gate envOk (some "") dataOk (Or.inl rfl)⟩

/-- Claim C8: for every request with a valid secret in which the brief or
task field is missing or empty (Python-falsy), the response is 400 and no
generation or repository operation occurs (the trace is empty), in both the
round-1 and the round-≥2 branch. -/
theorem missing_fields_400 (env : Env) (mySecret : Option String)
    (data : RequestData)
    (hs : truthy mySecret = true) (heq : data.secret = mySecret)
    (hmiss : truthy data.brief = false ∨ truthy data.task = false) :
    handle_request env mySecret (some data) = (.status 400, []) := by
  have hval : (!(truthy data.brief && truthy data.task)) = true := by
    rcases hmiss with h | h <;> simp [h]
  have hbr : (if (data.round.getD 1 : Int) > 1 then handle_round_2 env.update data
      else handle_round_1 env.deploy env.llmCreate data) =
      (.error (.status 400), []) := by
    split
    · simp [handle_round_2, hval]
    · simp [handle_round_1, hval]
  simp only [handle_request, heq, hs, bne_self_eq_false, Bool.not_true,
    Bool.or_false, Bool.false_or, Bool.false_eq_true, if_false, hbr]

theorem missing_fields_400_witness :
    (truthy (some "s1") = true ∧ dataNoBrief.secret = some "s1" ∧
      (truthy dataNoBrief.brief = false ∨ truthy dataNoBrief.task = false)) ∧
    handle_request envOk (some "s1") (some dataNoBrief) = (.status 400, []) :=
  ⟨⟨rfl, rfl, Or.inl rfl⟩,
    missing_fields_400 envOk (some "s1") dataNoBrief rfl rfl (Or.inl rfl)⟩

/-- Claim C10: for a round-1 request with a valid secret, brief, and task
whose attachments contain an entry with no `name` key, the attachment
subscript is evaluated outside the exception guard in
`generate_code_with_llm`, so the function escapes with an uncaught exception
(`Except.error`) instead of returning its `None` failure marker, and the
request crashes out of the handler rather than producing the documented 500
generation-failure response. -/
theorem attachment_keyerror_crash :
    (generate_code_with_llm (Except.ok "<html>ok</html>") "a todo app"
        [attMissingName] []).1 = Except.error () ∧
    handle_request envOk (some "s1") (some dataMissingKey) = (.crash, []) ∧
    (handle_request envOk (some "s1") (some dataMissingKey)).1 ≠ .status 500 :=
  ⟨rfl, rfl, by decide⟩

/-- Claim C1, counterexample: a request that passes secret verification but
whose repository creation raises is answered with 500 and the result payload
is never sent (zero notifier invocations), contradicting the claim that the
payload is sent exactly once with null fields when publish fails. -/
theorem payload_always_sent_counterexample :
    handle_request envFailCreate (some "s1") (some dataOk) =
      (.status 500, [.llmCall]) ∧
    countInvoked (handle_request envFailCreate (some "s1") (some dataOk)).2 = 0 :=
  ⟨rfl, rfl⟩

/-- Claim C2, counterexample: a pages-enable POST answered with a non-success
status (404) makes `enable_github_pages` return false, yet `deploy_to_github`
ignores that Boolean and still returns a fully successful triple — the
round-1 publish run is not aborted. -/
theorem pages_failure_does_not_abort :
    enable_github_pages (PagesResult.status 404) "todo-demo" =
      (false, [.pagesRequest "todo-demo"]) ∧
    (deploy_to_github pagesFailDeploy "todo-demo" "<html>ok</html>" "a todo app").1 =
      (some "https://github.com/octo/todo-demo",
       some "https://octo.github.io/todo-demo/", some "sha1") :=
  ⟨rfl, rfl⟩

/-- Claim C3, counterexample: an LLM answer that splits on the delimiter into
exactly two parts with the second part empty is not treated as a generation
failure: both file commits are still issued and the update returns a success
triple. -/
theorem empty_part_still_commits :
    (modify_code_with_llm (Except.ok "<html>new</html><<FILE_SEPARATOR>>")
        "b" [] "o" "r").1 = some ("<html>new</html>", "") ∧
    countUpdates (update_github_repo emptyPartUpdate "todo-demo" "b" []).2 = 2 ∧
    (update_github_repo emptyPartUpdate "todo-demo" "b" []).1 ≠ (none, none, none) :=
  ⟨rfl, rfl, by decide⟩

/-- Claim C7, counterexample: the round-1 branch completes without aborting
(it returns a success triple), yet because `evaluation_url` is missing the
handler answers 400 and the notifier is never invoked — not invoked exactly
once with a 200 response as claimed. -/
theorem dispatcher_counterexample :
    (handle_round_1 envOk.deploy envOk.llmCreate dataNoEval).1 = .ok tripOk ∧
    (handle_request envOk (some "s1") (some dataNoEval)).1 = .status 400 ∧
    countInvoked (handle_request envOk (some "s1") (some dataNoEval)).2 = 0 :=
  ⟨rfl, rfl, rfl⟩

/-!  ## Deployment abort characterisation  -/

theorem deploy_aborts_none (e : DeployEnv) (ha : deployAborts e) (n h b : String) :
    (deploy_to_github e n h b).1 = (none, none, none) := by
  obtain ⟨gu, ul, un, gr, del, cr, ci, crm, cl, pg, gb, bs, ru⟩ := e
  simp only [deployAborts] at ha
  rcases ha with ha | ha | ⟨ha1, ha2⟩ | ha | ha | ha | ha | ha <;> subst_vars <;>
    simp only [deploy_to_github, cleanSlate] <;>
    (repeat' split)
  all_goals first
    | rfl
    | exact absurd trivial (by assumption)

theorem deploy_no_abort_success (e : DeployEnv) (ha : ¬ deployAborts e)
    (n h b : String) :
    (deploy_to_github e n h b).1 =
      (some e.repoHtmlUrl,
       some ("https://" ++ e.userLogin ++ ".github.io/" ++ n ++ "/"),
       some e.branchSha) := by
  simp only [deployAborts] at ha
  push_neg at ha
  obtain ⟨h1, h2, h3, h4, h5, h6, h7, h8⟩ := ha
  simp only [Bool.not_eq_true] at h1 h4 h5 h6 h7 h8
  have hcs : ∃ ev, cleanSlate e n = .ok ev := by
    simp only [cleanSlate]
    rcases hgr : e.getRepoOutcome with _ | _ | _
    · rcases hdel : e.deleteOutcome with _ | _ | _
      · exact ⟨_, rfl⟩
      · exact ⟨_, rfl⟩
      · exact absurd hdel (h3 hgr)
    · exact ⟨_, rfl⟩
    · exact absurd hgr h2
  obtain ⟨ev, hev⟩ := hcs
  simp [deploy_to_github, h1, hev, h4, h5, h6, h7, h8]

/-- Claim C2 (amended): a round-1 publish run is aborted — returning the
failure triple, which the handler converts to 500 — exactly by an exception
escaping its body: during user resolution, a non-`GithubException` during the
repository lookup or delete, or any exception during creation, one of the
three file commits, or the branch read-back.  A pages-enable failure
(exception or non-success response) does not abort: the run still returns a
success triple, and `GithubException`s during lookup/delete are swallowed by
design. -/
theorem deploy_abort_behavior (e : DeployEnv) (n h b : String) :
    (deployAborts e → (deploy_to_github e n h b).1 = (none, none, none)) ∧
    (¬ deployAborts e →
      (deploy_to_github e n h b).1 =
        (some e.repoHtmlUrl,
         some ("https://" ++ e.userLogin ++ ".github.io/" ++ n ++ "/"),
         some e.branchSha)) ∧
    (∀ (data : RequestData) (t : String), deployAborts e →
      truthy data.brief = true → truthy data.task = true →
      data.attachments = [] → stripHtmlFences t ≠ "" →
      (handle_round_1 e (.ok t) data).1 = .error (.status 500)) := by
  refine ⟨fun ha => deploy_aborts_none e ha n h b,
          fun ha => deploy_no_abort_success e ha n h b, ?_⟩
  intro data t ha hb ht hatt hne
  have hgen : generate_code_with_llm (.ok t) (data.brief.getD "")
      data.attachments data.checks = (.ok (some (stripHtmlFences t)), [.llmCall]) := by
    simp [generate_code_with_llm, attachmentsString, hatt]
  have hdep := deploy_aborts_none e ha (data.task.getD "") (stripHtmlFences t)
    (data.brief.getD "")
  have hne2 : (stripHtmlFences t == "") = false := beq_eq_false_iff_ne.mpr hne
  simp [handle_round_1, hb, ht, hgen, hne2, hdep]

theorem deploy_abort_behavior_witness :
    deployAborts abortDeploy ∧
    (deploy_to_github abortDeploy "todo-demo" "<html>ok</html>" "a todo app").1 =
      (none, none, none) :=
  ⟨by decide,
    (deploy_abort_behavior abortDeploy "todo-demo" "<html>ok</html>" "a todo app").1
      (by decide)⟩

/-- Claim C3 (amended): for every round-≥2 update run, an LLM response that
does not split on the fixed delimiter into exactly two parts is treated as a
generation failure: the run returns the failure triple and no file-update
commit is issued.  (The code checks only the number of parts, not their
non-emptiness: as the counterexample shows, a two-part split with an empty
part is accepted and committed.) -/
theorem bad_split_aborts_before_commit (e : UpdateEnv) (n b : String)
    (cs : List String) (t : String)
    (hllm : e.llm = .ok t)
    (hsplit : (pySplit t "<<FILE_SEPARATOR>>").length ≠ 2) :
    (update_github_repo e n b cs).1 = (none, none, none) ∧
    countUpdates (update_github_repo e n b cs).2 = 0 := by
  have hmod : (modify_code_with_llm e.llm b cs e.indexContent e.readmeContent).1
      = none := by
    rw [hllm]
    simp only [modify_code_with_llm]
    rcases hsp : pySplit t "<<FILE_SEPARATOR>>" with _ | ⟨p0, _ | ⟨p1, _ | ⟨p2, rest⟩⟩⟩
    · rfl
    · rfl
    · exact absurd (by rw [hsp]; rfl) hsplit
    · rfl
  constructor
  · simp only [update_github_repo]
    repeat' split
    all_goals first
      | rfl
      | simp_all
  · simp only [update_github_repo]
    repeat' split
    all_goals first
      | rfl
      | (simp [modify_trace, countUpdates, List.countP_cons, isUpdated]; done)
      | simp_all

theorem bad_split_aborts_before_commit_witness :
    (noSepUpdate.llm = .ok "just one file" ∧
      (pySplit "just one file" "<<FILE_SEPARATOR>>").length ≠ 2) ∧
    ((update_github_repo noSepUpdate "todo-demo" "b" []).1 = (none, none, none) ∧
      countUpdates (update_github_repo noSepUpdate "todo-demo" "b" []).2 = 0) :=
  ⟨⟨rfl, by decide⟩,
    bad_split_aborts_before_commit noSepUpdate "todo-demo" "b" [] "just one file"
      rfl (by decide)⟩

/-- Claim C6: in a fully successful round-≥2 update run whose LLM answer
splits into exactly two parts, the updated `index.html` is committed against
the content hash fetched before generation (the trace shows that fetch
preceding the LLM call and the commit reusing its hash); after the sleep the
README hash is re-fetched and the updated README committed against that fresh
hash; and the commit identifier returned is the one extracted from the README
update response. -/
theorem update_commit_sequence (e : UpdateEnv) (n b : String) (cs : List String)
    (t p0 p1 : String) (hok : UpdateOk e) (hllm : e.llm = .ok t)
    (hsplit : pySplit t "<<FILE_SEPARATOR>>" = [p0, p1]) :
    update_github_repo e n b cs =
      ((some e.repoHtmlUrl,
        some ("https://" ++ e.userLogin ++ ".github.io/" ++ n ++ "/"),
        some e.newCommitSha),
       [.fileFetched "index.html" e.indexSha,
        .fileFetched "README.md" e.readmeSha,
        .llmCall,
        .fileUpdated "index.html" e.indexSha (stripHtmlFences p0) e.updateIndexResultSha,
        .sleep 2,
        .fileFetched "README.md" e.readmeSha2,
        .fileUpdated "README.md" e.readmeSha2 (stripMdFences p1) e.newCommitSha]) := by
  obtain ⟨h1, h2, h3, h4, h5, h6, h7⟩ := hok
  have hmod : modify_code_with_llm e.llm b cs e.indexContent e.readmeContent =
      (some (stripHtmlFences p0, stripMdFences p1), [.llmCall]) := by
    rw [hllm]
    simp [modify_code_with_llm, hsplit]
  simp [update_github_repo, h1, h2, h3, h4, h5, h6, h7, hmod]

theorem update_commit_sequence_witness :
    (UpdateOk okUpdate ∧
      okUpdate.llm = .ok "<html>new</html><<FILE_SEPARATOR>># new" ∧
      pySplit "<html>new</html><<FILE_SEPARATOR>># new" "<<FILE_SEPARATOR>>" =
        ["<html>new</html>", "# new"]) ∧
    update_github_repo okUpdate "todo-demo" "b" [] =
      ((some "https://github.com/octo/todo-demo",
        some "https://octo.github.io/todo-demo/", some "shaC"),
       [.fileFetched "index.html" "shaA", .fileFetched "README.md" "shaB", .llmCall,
        .fileUpdated "index.html" "shaA" (stripHtmlFences "<html>new</html>") "shaI",
        .sleep 2, .fileFetched "README.md" "shaB2",
        .fileUpdated "README.md" "shaB2" (stripMdFences "# new") "shaC"]) :=
  ⟨⟨by decide, rfl, by decide⟩,
    update_commit_sequence okUpdate "todo-demo" "b" []
      "<html>new</html><<FILE_SEPARATOR>># new" "<html>new</html>" "# new"
      (by decide) rfl (by decide)⟩

/-!  ## Fully successful deployment trace, and the notify-once property  -/

theorem deploy_ok_trace (e : DeployEnv) (n h b : String) (he : DeployOk e) :
    deploy_to_github e n h b =
      ((some e.repoHtmlUrl,
        some ("https://" ++ e.userLogin ++ ".github.io/" ++ n ++ "/"),
        some e.branchSha),
       [.repoCreated n, .fileCreated "index.html" h,
        .fileCreated "README.md" (pyStrip (readmeText n b)),
        .fileCreated "LICENSE" (pyStrip (licenseText (resolvedUserName e))),
        .pagesRequest n]) := by
  obtain ⟨h1, h2, h3, h4, h5, h6, h7, h8⟩ := he
  cases hpg : e.pagesOutcome <;>
    simp [deploy_to_github, cleanSlate, enable_github_pages, h1, h2, h3, h4, h5,
      h6, h7, hpg]

theorem notify_once_aux (env : Env) (mySecret : Option String)
    (data : RequestData)
    (hs : truthy mySecret = true) (heq : data.secret = mySecret)
    (trip : Option String × Option String × Option String) (evs : List Event)
    (hbr : (if (data.round.getD 1 : Int) > 1 then handle_round_2 env.update data
        else handle_round_1 env.deploy env.llmCreate data) = (.ok trip, evs))
    (hurl : truthy data.evaluation_url = true) :
    (handle_request env mySecret (some data)).1 = .status 200 ∧
    countInvoked (handle_request env mySecret (some data)).2 = 1 ∧
    Event.notifyInvoked (data.evaluation_url.getD "")
        ⟨data.email, data.task, data.round.getD 1, data.nonce,
          trip.1, trip.2.2, trip.2.1⟩ ∈ (handle_request env mySecret (some data)).2 := by
  obtain ⟨ru, pu, cs⟩ := trip
  have hbev : countInvoked evs = 0 := by
    rcases lt_or_ge (1 : Int) (data.round.getD 1) with hgt | hle
    · rw [if_pos hgt] at hbr
      have h2 := countInvoked_round2 env.update data
      rw [hbr] at h2
      exact h2
    · rw [if_neg (not_lt.mpr hle)] at hbr
      have h2 := countInvoked_round1 env.deploy env.llmCreate data
      rw [hbr] at h2
      exact h2
  have hmain : handle_request env mySecret (some data) =
      (.status 200, evs ++ (notify_evaluation_server env.notifyOutcomes
        (data.evaluation_url.getD "")
        ⟨data.email, data.task, data.round.getD 1, data.nonce, ru, cs, pu⟩).2) := by
    simp only [handle_request, heq, hs, bne_self_eq_false, Bool.not_true,
      Bool.or_false, Bool.false_eq_true, if_false, hbr]
    simp [hurl]
  rw [hmain]
  refine ⟨rfl, ?_, ?_⟩
  · rw [countInvoked_append, hbev, countInvoked_notify]
  · simp only [notify_evaluation_server]
    exact List.mem_append_right _ (List.mem_cons_self _ _)

/-- Claim C9: a round-1 request with a valid secret, brief, and task whose
`evaluation_url` is missing (or empty) is answered 400, but only after the
whole publish has run: the 400-response trace already contains the repository
creation and all three file commits, while no notifier invocation ever
happens — validation of `evaluation_url` comes only after publish. -/
theorem eval_url_checked_after_publish (env : Env) (mySecret : Option String)
    (data : RequestData) (t : String)
    (hs : truthy mySecret = true) (heq : data.secret = mySecret)
    (hb : truthy data.brief = true) (ht : truthy data.task = true)
    (hr : ¬ ((data.round.getD 1 : Int) > 1))
    (hatt : data.attachments = [])
    (hllm : env.llmCreate = .ok t) (hne : stripHtmlFences t ≠ "")
    (hdep : DeployOk env.deploy)
    (hurl : truthy data.evaluation_url = false) :
    (handle_request env mySecret (some data)).1 = .status 400 ∧
    Event.repoCreated (data.task.getD "") ∈ (handle_request env mySecret (some data)).2 ∧
    (∃ c, Event.fileCreated "index.html" c ∈ (handle_request env mySecret (some data)).2) ∧
    (∃ c, Event.fileCreated "README.md" c ∈ (handle_request env mySecret (some data)).2) ∧
    (∃ c, Event.fileCreated "LICENSE" c ∈ (handle_request env mySecret (some data)).2) ∧
    countInvoked (handle_request env mySecret (some data)).2 = 0 := by
  have hgen : generate_code_with_llm env.llmCreate (data.brief.getD "")
      data.attachments data.checks = (.ok (some (stripHtmlFences t)), [.llmCall]) := by
    rw [hllm]
    simp [generate_code_with_llm, attachmentsString, hatt]
  have hdt := deploy_ok_trace env.deploy (data.task.getD "") (stripHtmlFences t)
    (data.brief.getD "") hdep
  have hrepo : (env.deploy.repoHtmlUrl == "") = false :=
    beq_eq_false_iff_ne.mpr hdep.2.2.2.2.2.2.2
  have hne2 : (stripHtmlFences t == "") = false := beq_eq_false_iff_ne.mpr hne
  have hmain : handle_request env mySecret (some data) =
      (.status 400,
       .llmCall :: [.repoCreated (data.task.getD ""),
        .fileCreated "index.html" (stripHtmlFences t),
        .fileCreated "README.md"
          (pyStrip (readmeText (data.task.getD "") (data.brief.getD ""))),
        .fileCreated "LICENSE" (pyStrip (licenseText (resolvedUserName env.deploy))),
        .pagesRequest (data.task.getD "")]) := by
    simp only [handle_request, heq, hs, bne_self_eq_false, Bool.not_true,
      Bool.or_false, Bool.false_eq_true, if_false]
    rw [if_neg hr]
    simp [handle_round_1, hb, ht, hgen, hdt, hrepo, hne2, hurl]
  rw [hmain]
  exact ⟨rfl, by simp, ⟨stripHtmlFences t, by simp⟩,
    ⟨pyStrip (readmeText (data.task.getD "") (data.brief.getD "")), by simp⟩,
    ⟨pyStrip (licenseText (resolvedUserName env.deploy)), by simp⟩, rfl⟩

theorem eval_url_checked_after_publish_witness :
    (DeployOk okDeploy ∧ stripHtmlFences "<html>ok</html>" ≠ "" ∧
      truthy dataNoEval.evaluation_url = false) ∧
    ((handle_request envOk (some "s1") (some dataNoEval)).1 = .status 400 ∧
      Event.repoCreated (dataNoEval.task.getD "") ∈
        (handle_request envOk (some "s1") (some dataNoEval)).2 ∧
      (∃ c, Event.fileCreated "index.html" c ∈
        (handle_request envOk (some "s1") (some dataNoEval)).2) ∧
      (∃ c, Event.fileCreated "README.md" c ∈
        (handle_request envOk (some "s1") (some dataNoEval)).2) ∧
      (∃ c, Event.fileCreated "LICENSE" c ∈
        (handle_request envOk (some "s1") (some dataNoEval)).2) ∧
      countInvoked (handle_request envOk (some "s1") (some dataNoEval)).2 = 0) :=
  ⟨⟨by decide, by decide, rfl⟩,
    eval_url_checked_after_publish envOk (some "s1") dataNoEval "<html>ok</html>"
      rfl rfl rfl rfl (by decide) rfl rfl (by decide) (by decide) rfl⟩

/-- Claim C1 (amended): for every request that passes secret verification,
when the selected round branch completes successfully and a non-empty
`evaluation_url` is supplied, the result payload
{email, task, round, nonce, repo_url, commit_sha, pages_url} — with the URLs
and sha taken from the branch result — is handed to the notifier exactly
once, regardless of the notify outcome; when the branch aborts (in
particular when publish/update fails with 500) the handler returns that
error and no payload is ever sent: the null-URL payload of the original
claim does not exist. -/
theorem payload_sent_once_on_success (env : Env) (mySecret : Option String)
    (data : RequestData)
    (hs : truthy mySecret = true) (heq : data.secret = mySecret) :
    (∀ trip evs,
      (if (data.round.getD 1 : Int) > 1 then handle_round_2 env.update data
       else handle_round_1 env.deploy env.llmCreate data) = (.ok trip, evs) →
      truthy data.evaluation_url = true →
      (handle_request env mySecret (some data)).1 = .status 200 ∧
      countInvoked (handle_request env mySecret (some data)).2 = 1 ∧
      Event.notifyInvoked (data.evaluation_url.getD "")
          ⟨data.email, data.task, data.round.getD 1, data.nonce,
            trip.1, trip.2.2, trip.2.1⟩ ∈
        (handle_request env mySecret (some data)).2) ∧
    (∀ o evs,
      (if (data.round.getD 1 : Int) > 1 then handle_round_2 env.update data
       else handle_round_1 env.deploy env.llmCreate data) = (.error o, evs) →
      handle_request env mySecret (some data) = (o, evs) ∧
      countInvoked evs = 0) := by
  constructor
  · intro trip evs hbr hurl
    exact notify_once_aux env mySecret data hs heq trip evs hbr hurl
  · intro o evs hbr
    constructor
    · simp only [handle_request, heq, hs, bne_self_eq_false, Bool.not_true,
        Bool.or_false, Bool.false_eq_true, if_false, hbr]
    · rcases lt_or_ge (1 : Int) (data.round.getD 1) with hgt | hle
      · rw [if_pos hgt] at hbr
        have h2 := countInvoked_round2 env.update data
        rw [hbr] at h2
        exact h2
      · rw [if_neg (not_lt.mpr hle)] at hbr
        have h2 := countInvoked_round1 env.deploy env.llmCreate data
        rw [hbr] at h2
        exact h2

theorem payload_sent_once_on_success_witness :
    ((if ((dataOk.round.getD 1 : Int) > 1) then handle_round_2 envOk.update dataOk
      else handle_round_1 envOk.deploy envOk.llmCreate dataOk) =
        (.ok tripOk, evsOkR1) ∧
      truthy dataOk.evaluation_url = true) ∧
    ((handle_request envOk (some "s1") (some dataOk)).1 = .status 200 ∧
      countInvoked (handle_request envOk (some "s1") (some dataOk)).2 = 1) :=
  ⟨⟨rfl, rfl⟩,
    ⟨((payload_sent_once_on_success envOk (some "s1") dataOk rfl rfl).1
        tripOk evsOkR1 rfl rfl).1,
     ((payload_sent_once_on_success envOk (some "s1") dataOk rfl rfl).1
        tripOk evsOkR1 rfl rfl).2.1⟩⟩

/-- Claim C7 (amended): the dispatcher selects the round-1 (create) branch
when the round field is absent or 1 — the response is then independent of the
update machinery — and the round-≥2 (modify) branch when round > 1 — the
response is then independent of the create machinery; when the selected
branch completes without aborting and a non-empty `evaluation_url` is
supplied, the notifier is invoked exactly once and the webhook answers 200
regardless of the notify outcome.  (When `evaluation_url` is missing, the
request instead aborts with 400 before the notifier, as the counterexample
shows.) -/
theorem dispatcher_behavior (env env2 : Env) (mySecret : Option String)
    (data : RequestData) :
    ((data.round = none ∨ data.round = some 1) →
      env2.deploy = env.deploy → env2.llmCreate = env.llmCreate →
      env2.notifyOutcomes = env.notifyOutcomes →
      handle_request env2 mySecret (some data) =
        handle_request env mySecret (some data)) ∧
    ((1 : Int) < data.round.getD 1 →
      env2.update = env.update → env2.notifyOutcomes = env.notifyOutcomes →
      handle_request env2 mySecret (some data) =
        handle_request env mySecret (some data)) ∧
    (truthy mySecret = true → data.secret = mySecret →
      ∀ trip evs,
        (if (data.round.getD 1 : Int) > 1 then handle_round_2 env.update data
         else handle_round_1 env.deploy env.llmCreate data) = (.ok trip, evs) →
        truthy data.evaluation_url = true →
        (handle_request env mySecret (some data)).1 = .status 200 ∧
        countInvoked (handle_request env mySecret (some data)).2 = 1) := by
  refine ⟨?_, ?_, ?_⟩
  · intro hround hd hl hn
    have hle : ¬ ((data.round.getD 1 : Int) > 1) := by
      rcases hround with h | h <;> simp [h]
    simp only [handle_request, hd, hl, hn]
    rw [if_neg hle, if_neg hle]
  · intro hgt hu hn
    simp only [handle_request, hu, hn]
    rw [if_pos hgt, if_pos hgt]
  · intro hs heq trip evs hbr hurl
    have h3 := notify_once_aux env mySecret data hs heq trip evs hbr hurl
    exact ⟨h3.1, h3.2.1⟩

theorem dispatcher_behavior_witness :
    (dataOk.round = none ∨ dataOk.round = some 1) ∧
    handle_request envAltUpdate (some "s1") (some dataOk) =
      handle_request envOk (some "s1") (some dataOk) :=
  ⟨Or.inr rfl,
    (dispatcher_behavior envOk envAltUpdate (some "s1") dataOk).1
      (Or.inr rfl) rfl rfl rfl⟩

end LLMApp
